import Mathlib

/-! Forest Carbon Sequestration Platform: view controller and load lifecycle.

A shallow embedding of `src/dashboard/App.js` (the React component
`ForestCarbonPlatform`): its five `useState` cells, the setters, the async
function `initializeProject`, the tab buttons and the render body.

JavaScript numbers that occur in the component are finite decimals; they are
represented by the rationals they denote.  A JavaScript object with string
keys is an association list in insertion order, which is the order
`Object.entries` enumerates.
-/

namespace ForestCarbonPlatform

/-! ## Data model -/

/-- One entry of `sampleData.scenarios`: `{ carbon, change }`. -/
structure Scenario where
  carbon : ℚ
  change : ℚ
deriving DecidableEq

/-- The shape of the object stored in the `projectData` cell. -/
structure ProjectData where
  carbonStock : ℚ
  sequestrationRate : ℚ
  forestArea : ℚ
  economicValue : ℚ
  scenarios : List (String × Scenario)
deriving DecidableEq

/-- The five state cells declared by the `useState` calls (App.js lines 5-9).
`null` is `none`.  `analysisResults` is never written by the component. -/
structure State where
  activeTab : String
  projectData : Option ProjectData
  loading : Bool
  analysisResults : Option String
  selectedRegion : String
deriving DecidableEq

/-- The values passed to the `useState` initialisers (App.js lines 5-9). -/
def initialState : State :=
  { activeTab := "overview"
    projectData := none
    loading := false
    analysisResults := none
    selectedRegion := "default" }

/-- The constant `sampleData` (App.js lines 11-21). -/
def sampleData : ProjectData :=
  { carbonStock := 245.6
    sequestrationRate := 12.3
    forestArea := 15420
    economicValue := 2145000
    scenarios :=
      [ ("business_as_usual", { carbon := 220.4, change := -10.3 }),
        ("conservation", { carbon := 268.9, change := 9.5 }),
        ("afforestation", { carbon := 312.5, change := 27.3 }) ] }

/-! ## Setters -/

/-- The setter `setActiveTab` returned by `useState('overview')`. -/
def setActiveTab (id : String) (s : State) : State :=
  { s with activeTab := id }

/-- The setter `setProjectData` returned by `useState(null)`. -/
def setProjectData (d : Option ProjectData) (s : State) : State :=
  { s with projectData := d }

/-- The setter `setLoading` returned by `useState(false)`. -/
def setLoading (b : Bool) (s : State) : State :=
  { s with loading := b }

/-- The `onClick` handler of a `TabButton` with the given `id`
(App.js line 108): `() => setActiveTab(id)`. -/
def selectView (tag : String) (s : State) : State :=
  setActiveTab tag s

/-- The `id` props of the four `TabButton` instances in the render body
(App.js lines 539-542), in document order. -/
def tabIds : List String :=
  ["overview", "codebase", "datasources", "dashboard"]

/-! ## The startup effect and `initializeProject`

`initializeProject` (App.js lines 23-28) is an async function: it runs
`setLoading(true)`, suspends at the `await` on a 1500 ms timer, and when the
timer resolves runs `setProjectData(sampleData)` and then `setLoading(false)`.
-/

/-- The part of `initializeProject` before the `await` (App.js line 24). -/
def initializeProjectStart (s : State) : State :=
  setLoading true s

/-- The statements of `initializeProject` after the `await`
(App.js lines 26-27), in program order. -/
def initializeProjectResume : List (State → State) :=
  [setProjectData (some sampleData), setLoading false]

/-- The whole continuation after the `await`, run to its end. -/
def initializeProjectFinish (s : State) : State :=
  initializeProjectResume.foldl (fun acc f => f acc) s

/-- How far the call of `initializeProject` made by the mount effect
(App.js lines 30-32) has got. -/
inductive LoadPhase
  /-- The component is mounted, the effect has not run yet. -/
  | notStarted
  /-- Suspended at the `await`, after `setLoading(true)`. -/
  | awaiting
  /-- Between `setProjectData(sampleData)` and `setLoading(false)`. -/
  | dataSet
  /-- The function has returned. -/
  | completed
deriving DecidableEq

/-- Whether the renderer commits the setter calls of one asynchronous
continuation together (automatic batching) or one by one (each call outside
an event handler commits on its own).  The source does not fix which. -/
inductive UpdateMode
  | batched
  | unbatched
deriving DecidableEq

/-- The mounted component: its state cells and the progress of the load. -/
structure Component where
  state : State
  phase : LoadPhase
deriving DecidableEq

/-- The component as first rendered. -/
def Component.initial : Component :=
  { state := initialState, phase := LoadPhase.notStarted }

/-- What can happen to the mounted component. -/
inductive Event
  /-- The mount effect runs: `initializeProject()` up to its `await`. -/
  | effect
  /-- The timer resolves and the continuation of `initializeProject` runs:
  all of it in batched mode, its first setter in unbatched mode. -/
  | resume
  /-- In unbatched mode, the second setter of the continuation commits. -/
  | finish
  /-- A click on the tab button with the given id. -/
  | click (id : String)
deriving DecidableEq

/-- One transition of the component.  `none` when the event cannot occur:
the effect runs once, the timer resolves once, only the four rendered tab
buttons can be clicked, and no handler runs between the two statements of
the continuation. -/
def step (m : UpdateMode) (e : Event) (c : Component) : Option Component :=
  match e, c.phase, m with
  | Event.effect, LoadPhase.notStarted, _ =>
      some { state := initializeProjectStart c.state, phase := LoadPhase.awaiting }
  | Event.resume, LoadPhase.awaiting, UpdateMode.batched =>
      some { state := initializeProjectFinish c.state, phase := LoadPhase.completed }
  | Event.resume, LoadPhase.awaiting, UpdateMode.unbatched =>
      some { state := setProjectData (some sampleData) c.state, phase := LoadPhase.dataSet }
  | Event.finish, LoadPhase.dataSet, UpdateMode.unbatched =>
      some { state := setLoading false c.state, phase := LoadPhase.completed }
  | Event.click id, p, _ =>
      if id ∈ tabIds ∧ p ≠ LoadPhase.dataSet then
        some { state := selectView id c.state, phase := p }
      else none
  | _, _, _ => none

/-- Run a sequence of events, failing at the first that cannot occur. -/
def run (m : UpdateMode) : List Event → Component → Option Component
  | [], c => some c
  | e :: es, c => (step m e c).bind (run m es)

/-- A component state reached from the first render by some events. -/
def Reachable (m : UpdateMode) (c : Component) : Prop :=
  ∃ es : List Event, run m es Component.initial = some c

/-- The events of startup and load completion with no click in between. -/
def loadEvents : UpdateMode → List Event
  | UpdateMode.batched => [Event.effect, Event.resume]
  | UpdateMode.unbatched => [Event.effect, Event.resume, Event.finish]

/-- The simulated load has completed: `initializeProject` has returned. -/
def Component.loadCompleted (c : Component) : Bool :=
  c.phase == LoadPhase.completed

/-- The timer of the simulated load has not resolved yet. -/
def Component.beforeLoad (c : Component) : Bool :=
  c.phase == LoadPhase.notStarted || c.phase == LoadPhase.awaiting

/-! ## Rendering

The render output is kept as data: the props each `MetricCard` receives, the
rows of the scenario list, and which children the content area holds.  Markup
that is the same in every state (class names of the layout, icons, headings,
the text of the snippets) is not part of the model; a `CodeBlock` is recorded
by its title and the key of `codeSnippets` it shows.
-/

/-- JavaScript `x || 0` on a number that is not NaN: zero is falsy. -/
def orZero (x : ℚ) : ℚ :=
  if x = 0 then 0 else x

/-- JavaScript `projectData?.field || 0`: optional chaining on `null` gives
`undefined`, which is falsy. -/
def fieldOrZero (d : Option ProjectData) (field : ProjectData → ℚ) : ℚ :=
  match d with
  | none => 0
  | some p => orZero (field p)

/-- The props passed to one `MetricCard` (the icon apart). -/
structure MetricCardProps where
  label : String
  value : ℚ
  unit : String
  trend : ℚ
deriving DecidableEq

/-- JavaScript `key.replace('_', ' ')` on the characters of a string: only
the first occurrence is replaced. -/
def replaceFirst (c r : Char) : List Char → List Char
  | [] => []
  | x :: xs => if x = c then r :: xs else x :: replaceFirst c r xs

/-- One row of the scenario comparison (App.js lines 191-205). -/
structure ScenarioRow where
  key : String
  title : String
  carbon : ℚ
  change : ℚ
  /-- The colour classes chosen by `data.change > 0`. -/
  className : String
  /-- The text put before the number: `'+'` when `data.change > 0`. -/
  sign : String
deriving DecidableEq

/-- The body of the `map` callback in `renderOverview`. -/
def scenarioRow (entry : String × Scenario) : ScenarioRow :=
  { key := entry.1
    title := String.mk (replaceFirst '_' ' ' entry.1.data)
    carbon := entry.2.carbon
    change := entry.2.change
    className :=
      if entry.2.change > 0 then "bg-green-100 text-green-700"
      else "bg-red-100 text-red-700"
    sign := if entry.2.change > 0 then "+" else "" }

/-- The rows rendered by
`projectData?.scenarios && Object.entries(projectData.scenarios).map(...)`:
nothing when `projectData` is `null`. -/
def scenarioRows (d : Option ProjectData) : List ScenarioRow :=
  match d with
  | none => []
  | some p => p.scenarios.map scenarioRow

/-- The four `MetricCard` elements of `renderOverview` (App.js lines 157-184). -/
def metricCards (d : Option ProjectData) : List MetricCardProps :=
  [ { label := "Total Carbon Stock"
      value := fieldOrZero d ProjectData.carbonStock
      unit := "Mg C/ha", trend := -2.3 },
    { label := "Sequestration Rate"
      value := fieldOrZero d ProjectData.sequestrationRate
      unit := "Mg C/ha/year", trend := 1.5 },
    { label := "Forest Area"
      value := fieldOrZero d ProjectData.forestArea
      unit := "hectares", trend := -0.8 },
    { label := "Economic Value"
      value := fieldOrZero d ProjectData.economicValue
      unit := "USD", trend := 3.2 } ]

/-- What one of the four render functions returns. -/
inductive View
  | overview (cards : List MetricCardProps) (rows : List ScenarioRow)
  | codebase (blocks : List (String × String))
  | dataSources
  | dashboard
deriving DecidableEq

/-- The function `renderOverview` (App.js lines 154-231); it reads the
`projectData` cell. -/
def renderOverview (s : State) : View :=
  View.overview (metricCards s.projectData) (scenarioRows s.projectData)

/-- The function `renderCodebase` (App.js lines 233-290): four `CodeBlock`
elements, each with its title and the key of `codeSnippets` it shows. -/
def renderCodebase : View :=
  View.codebase
    [ ("satellite_loader.py", "dataProcessing"),
      ("carbon_estimation.py", "carbonModeling"),
      ("api_clients.py", "dataExtraction"),
      ("scenarios.py", "scenarioAnalysis") ]

/-- The function `renderDataSources` (App.js lines 292-418). -/
def renderDataSources : View :=
  View.dataSources

/-- The function `renderDashboard` (App.js lines 420-511). -/
def renderDashboard : View :=
  View.dashboard

/-- JSX `cond && element`: the element, or `false`, which renders nothing. -/
def jsAnd (cond : Bool) (v : View) : Option View :=
  if cond then some v else none

/-- The content area of the render body (App.js lines 545-559). -/
inductive Content
  /-- The spinner with the text "Loading project data...". -/
  | loadingIndicator
  /-- The fragment with its four children, each an element or `false`. -/
  | fragment (children : List (Option View))
deriving DecidableEq

/-- The conditional expression in the render body:
`loading ? <spinner/> : <> ... </>`. -/
def renderContent (s : State) : Content :=
  if s.loading then Content.loadingIndicator
  else
    Content.fragment
      [ jsAnd (s.activeTab == "overview") (renderOverview s),
        jsAnd (s.activeTab == "codebase") renderCodebase,
        jsAnd (s.activeTab == "datasources") renderDataSources,
        jsAnd (s.activeTab == "dashboard") renderDashboard ]

/-- The views the content area shows: the children that are elements. -/
def Content.views : Content → List View
  | Content.loadingIndicator => []
  | Content.fragment children => children.reduceOption

/-- Whether the content area shows the loading indicator. -/
def Content.showsLoading : Content → Bool
  | Content.loadingIndicator => true
  | Content.fragment _ => false

/-! ## The invariant of the load lifecycle -/

/-- What the two cells `projectData` and `loading` hold in each phase. -/
def Inv (c : Component) : Prop :=
  match c.phase with
  | LoadPhase.notStarted => c.state.projectData = none ∧ c.state.loading = false
  | LoadPhase.awaiting => c.state.projectData = none ∧ c.state.loading = true
  | LoadPhase.dataSet => c.state.projectData = some sampleData ∧ c.state.loading = true
  | LoadPhase.completed => c.state.projectData = some sampleData ∧ c.state.loading = false

/-- The state after startup and load completion with no click in between. -/
def loadedState : State :=
  { activeTab := "overview"
    projectData := some sampleData
    loading := false
    analysisResults := none
    selectedRegion := "default" }

/-- The clicks on the tab buttons with the given ids, in order. -/
def clicks (tags : List String) : List Event :=
  tags.map Event.click

/-- The view a tag names, as the four render functions produce it for the
given state; `none` for a string that names no view. -/
def viewNamed (tag : String) (s : State) : Option View :=
  if tag = "overview" then some (renderOverview s)
  else if tag = "codebase" then some renderCodebase
  else if tag = "datasources" then some renderDataSources
  else if tag = "dashboard" then some renderDashboard
  else none

/-! ## Lemmas on the step function -/

theorem inv_initial : Inv Component.initial := by
  simp [Inv, Component.initial, initialState]

theorem step_inv (m : UpdateMode) (e : Event) (c c' : Component)
    (h : step m e c = some c') (hi : Inv c) : Inv c' := by
  obtain ⟨st, ph⟩ := c
  cases e <;> cases ph <;> cases m <;>
    simp [step, Inv, initializeProjectStart, initializeProjectFinish,
      initializeProjectResume, setLoading, setProjectData, selectView,
      setActiveTab] at h hi ⊢ <;>
    first
      | (subst h; simp [hi])
      | (obtain ⟨_, h⟩ := h; subst h; simp [hi])

theorem run_inv (m : UpdateMode) (es : List Event) :
    ∀ c c', run m es c = some c' → Inv c → Inv c' := by
  induction es with
  | nil =>
    intro c c' h hi
    simp [run] at h
    subst h
    exact hi
  | cons e es ih =>
    intro c c' h hi
    simp only [run] at h
    cases hs : step m e c with
    | none => simp [hs] at h
    | some c1 =>
      simp [hs] at h
      exact ih c1 c' h (step_inv m e c c1 hs hi)

theorem reachable_inv (m : UpdateMode) (c : Component) (h : Reachable m c) : Inv c := by
  obtain ⟨es, hes⟩ := h
  exact run_inv m es _ _ hes inv_initial

theorem run_append (m : UpdateMode) (es fs : List Event) (c : Component) :
    run m (es ++ fs) c = (run m es c).bind (run m fs) := by
  induction es generalizing c with
  | nil => simp [run]
  | cons e es ih =>
    simp only [List.cons_append, run]
    cases step m e c with
    | none => simp
    | some c1 => simp [ih]

theorem reachable_run (m : UpdateMode) (es : List Event) (c c' : Component)
    (hc : Reachable m c) (h : run m es c = some c') : Reachable m c' := by
  obtain ⟨es0, h0⟩ := hc
  exact ⟨es0 ++ es, by rw [run_append, h0]; simpa using h⟩

theorem run_loadEvents (m : UpdateMode) :
    run m (loadEvents m) Component.initial
      = some { state := loadedState, phase := LoadPhase.completed } := by
  cases m <;> rfl

theorem selectView_loading (t : String) (s : State) :
    (selectView t s).loading = s.loading := rfl

theorem selectView_projectData (t : String) (s : State) :
    (selectView t s).projectData = s.projectData := rfl

/-- After any clicks on rendered tab buttons the load phase `p` is kept, the
state is the fold of `selectView`, for a phase that accepts clicks. -/
theorem run_clicks (m : UpdateMode) (tags : List String)
    (hv : ∀ t ∈ tags, t ∈ tabIds) (p : LoadPhase) (hp : p ≠ LoadPhase.dataSet) :
    ∀ s : State, run m (clicks tags) { state := s, phase := p }
      = some { state := tags.foldl (fun acc t => selectView t acc) s, phase := p } := by
  induction tags with
  | nil => intro s; rfl
  | cons t ts ih =>
    intro s
    have ht : t ∈ tabIds := hv t (List.mem_cons_self t ts)
    have hts : ∀ u ∈ ts, u ∈ tabIds := fun u hu => hv u (List.mem_cons_of_mem t hu)
    have hstep : step m (Event.click t) { state := s, phase := p }
        = some { state := selectView t s, phase := p } := by
      cases p <;> cases m <;> simp [step, ht] at hp ⊢
    simp only [clicks, List.map_cons, run, hstep, Option.some_bind, List.foldl_cons]
    exact ih hts (selectView t s)

theorem foldl_selectView_activeTab (tags : List String) :
    ∀ s : State, (tags.foldl (fun acc t => selectView t acc) s).activeTab
      = tags.getLast?.getD s.activeTab := by
  induction tags with
  | nil => intro s; rfl
  | cons t ts ih =>
    intro s
    rw [List.foldl_cons, ih]
    cases ts with
    | nil => rfl
    | cons u us =>
      rw [List.getLast?_cons_cons, List.getLast?_eq_getLast (u :: us) (List.cons_ne_nil u us)]
      rfl

theorem foldl_selectView_loading (tags : List String) :
    ∀ s : State, (tags.foldl (fun acc t => selectView t acc) s).loading = s.loading := by
  induction tags with
  | nil => intro s; rfl
  | cons t ts ih => intro s; rw [List.foldl_cons, ih]; rfl

/-- With `loading` false and a valid active tab the content area holds the
one view that tab names. -/
theorem renderContent_views (s : State) (hl : s.loading = false)
    (ht : s.activeTab ∈ tabIds) :
    ∃ v, (renderContent s).views = [v] ∧ viewNamed s.activeTab s = some v := by
  simp only [tabIds, List.mem_cons, List.mem_singleton, List.mem_nil_iff, or_false] at ht
  rcases ht with h | h | h | h <;>
    simp [renderContent, hl, h, Content.views, jsAnd, viewNamed, List.reduceOption]

theorem step_projectData (m : UpdateMode) (e : Event) (c c' : Component)
    (h : step m e c = some c') (hi : Inv c) (hd : c.state.projectData ≠ none) :
    c'.state.projectData = c.state.projectData := by
  obtain ⟨st, ph⟩ := c
  cases e <;> cases ph <;> cases m <;>
    simp [step, Inv, initializeProjectStart, initializeProjectFinish,
      initializeProjectResume, setLoading, setProjectData, selectView,
      setActiveTab] at h hi hd ⊢ <;>
    first
      | (exact absurd hi.1 hd)
      | (subst h; simp [hi])
      | (obtain ⟨_, h⟩ := h; subst h; simp)

theorem run_projectData (m : UpdateMode) (es : List Event) :
    ∀ c c', run m es c = some c' → Inv c → c.state.projectData ≠ none →
      c'.state.projectData = c.state.projectData := by
  induction es with
  | nil =>
    intro c c' h _ _
    simp [run] at h
    subst h
    rfl
  | cons e es ih =>
    intro c c' h hi hd
    simp only [run] at h
    cases hs : step m e c with
    | none => simp [hs] at h
    | some c1 =>
      simp [hs] at h
      have h1 := step_projectData m e c c1 hs hi hd
      rw [← h1]
      exact ih c1 c' h (step_inv m e c c1 hs hi) (by rw [h1]; exact hd)

theorem step_batched_phase (e : Event) (c c' : Component)
    (h : step UpdateMode.batched e c = some c') (hp : c.phase ≠ LoadPhase.dataSet) :
    c'.phase ≠ LoadPhase.dataSet := by
  obtain ⟨st, ph⟩ := c
  cases e <;> cases ph <;>
    simp [step] at h hp ⊢ <;>
    first
      | (subst h; simp)
      | (obtain ⟨_, h⟩ := h; subst h; simp)

theorem run_batched_phase (es : List Event) :
    ∀ c c', run UpdateMode.batched es c = some c' → c.phase ≠ LoadPhase.dataSet →
      c'.phase ≠ LoadPhase.dataSet := by
  induction es with
  | nil =>
    intro c c' h hp
    simp [run] at h
    subst h
    exact hp
  | cons e es ih =>
    intro c c' h hp
    simp only [run] at h
    cases hs : step UpdateMode.batched e c with
    | none => simp [hs] at h
    | some c1 =>
      simp [hs] at h
      exact ih c1 c' h (step_batched_phase e c c1 hs hp)

/-- In the state between the two setters the only transition is the second
setter. -/
theorem step_dataSet (m : UpdateMode) (e : Event) (c c' : Component)
    (hp : c.phase = LoadPhase.dataSet) (h : step m e c = some c') :
    e = Event.finish ∧ c' = { state := setLoading false c.state, phase := LoadPhase.completed } := by
  obtain ⟨st, ph⟩ := c
  simp only at hp
  subst hp
  cases e <;> cases m <;> simp [step] at h ⊢
  exact h.symm

theorem step_activeTab_mem (m : UpdateMode) (e : Event) (c c' : Component)
    (h : step m e c = some c') (ha : c.state.activeTab ∈ tabIds) :
    c'.state.activeTab ∈ tabIds := by
  obtain ⟨st, ph⟩ := c
  cases e <;> cases ph <;> cases m <;>
    simp only [step, initializeProjectStart, initializeProjectFinish,
      initializeProjectResume, setLoading, setProjectData, selectView,
      setActiveTab, List.foldl_cons, List.foldl_nil, Option.some.injEq,
      reduceCtorEq, ne_eq, not_true_eq_false, not_false_eq_true, and_true,
      and_false, if_false] at h ha <;>
    first
      | (subst h; exact ha)
      | (split_ifs at h with hc
         simp only [Option.some.injEq] at h
         subst h
         exact hc)

theorem run_activeTab_mem (m : UpdateMode) (es : List Event) :
    ∀ c c', run m es c = some c' → c.state.activeTab ∈ tabIds →
      c'.state.activeTab ∈ tabIds := by
  induction es with
  | nil =>
    intro c c' h ha
    simp [run] at h
    subst h
    exact ha
  | cons e es ih =>
    intro c c' h ha
    simp only [run] at h
    cases hs : step m e c with
    | none => simp [hs] at h
    | some c1 =>
      simp [hs] at h
      exact ih c1 c' h (step_activeTab_mem m e c c1 hs ha)

/-- A step that is not a click keeps `activeTab`. -/
theorem step_load_activeTab (m : UpdateMode) (e : Event) (c c' : Component)
    (he : ∀ id, e ≠ Event.click id) (h : step m e c = some c') :
    c'.state.activeTab = c.state.activeTab := by
  obtain ⟨st, ph⟩ := c
  cases e with
  | click id => exact absurd rfl (he id)
  | effect =>
    cases ph <;> cases m <;>
      simp [step, initializeProjectStart, setLoading] at h <;> subst h <;> rfl
  | resume =>
    cases ph <;> cases m <;>
      simp [step, initializeProjectFinish, initializeProjectResume, setLoading,
        setProjectData] at h <;> subst h <;> rfl
  | finish =>
    cases ph <;> cases m <;> simp [step, setLoading] at h
    subst h
    rfl

/-! ## The claims -/

/-- C1 (as stated, refuted): the first render, produced by the `useState`
initialisers before the startup effect has run, is a state before load
completion in which `loading` is false. -/
theorem C1_initial_not_loading :
    ¬ (∀ (m : UpdateMode) (c : Component), Reachable m c → c.beforeLoad = true →
        c.state.loading = true ∧ c.state.projectData = none) := by
  intro h
  have h0 := h UpdateMode.batched Component.initial ⟨[], rfl⟩ rfl
  simp [Component.initial, initialState] at h0

/-- C1 (amended): in every reachable state in which the timer of the simulated
load has not resolved yet, `projectData` is `null`, whatever `activeTab` is;
`loading` is true exactly when the startup effect has run (phase `awaiting`)
and false before it. -/
theorem C1_before_load (m : UpdateMode) (c : Component)
    (hr : Reachable m c) (hb : c.beforeLoad = true) :
    c.state.projectData = none ∧
      (c.state.loading = true ↔ c.phase = LoadPhase.awaiting) := by
  have hi := reachable_inv m c hr
  obtain ⟨st, ph⟩ := c
  cases ph <;> simp [Inv, Component.beforeLoad] at hi hb ⊢ <;> simp [hi]

/-- Witness for C1: after the effect and a click on "codebase". -/
theorem C1_before_load_witness :
    (⟨setActiveTab "codebase" (setLoading true initialState), LoadPhase.awaiting⟩ :
        Component).state.projectData = none ∧
      ((⟨setActiveTab "codebase" (setLoading true initialState), LoadPhase.awaiting⟩ :
        Component).state.loading = true ↔ LoadPhase.awaiting = LoadPhase.awaiting) :=
  C1_before_load UpdateMode.unbatched
    ⟨setActiveTab "codebase" (setLoading true initialState), LoadPhase.awaiting⟩
    ⟨[Event.effect, Event.click "codebase"], rfl⟩ rfl

/-- C2: once `initializeProject` has returned, `loading` is false and
`projectData` is `sampleData`, whose four scalar fields are 245.6, 12.3, 15420
and 2145000 and whose scenarios have exactly the keys business_as_usual,
conservation, afforestation; startup and load completion with no click in
between end in the state with `activeTab` still "overview". -/
theorem C2_after_load (m : UpdateMode) (c : Component)
    (hr : Reachable m c) (hc : c.loadCompleted = true) :
    c.state.loading = false ∧ c.state.projectData = some sampleData ∧
      sampleData.carbonStock = 245.6 ∧ sampleData.sequestrationRate = 12.3 ∧
      sampleData.forestArea = 15420 ∧ sampleData.economicValue = 2145000 ∧
      sampleData.scenarios.map Prod.fst
        = ["business_as_usual", "conservation", "afforestation"] ∧
      initializeProjectFinish (initializeProjectStart initialState) = loadedState ∧
      run m (loadEvents m) Component.initial
        = some { state := loadedState, phase := LoadPhase.completed } ∧
      loadedState.activeTab = "overview" := by
  have hi := reachable_inv m c hr
  obtain ⟨st, ph⟩ := c
  cases ph <;> simp [Component.loadCompleted] at hc
  simp only [Inv] at hi
  exact ⟨hi.2, hi.1, rfl, rfl, rfl, rfl, rfl, rfl, run_loadEvents m, rfl⟩

/-- Witness for C2: the component after startup, a click and load completion. -/
theorem C2_after_load_witness :
    (⟨setActiveTab "dashboard" loadedState, LoadPhase.completed⟩ : Component).state.loading
        = false ∧
      (⟨setActiveTab "dashboard" loadedState, LoadPhase.completed⟩ :
        Component).state.projectData = some sampleData :=
  have h := C2_after_load UpdateMode.unbatched
    ⟨setActiveTab "dashboard" loadedState, LoadPhase.completed⟩
    ⟨[Event.effect, Event.click "dashboard", Event.resume, Event.finish], rfl⟩ rfl
  ⟨h.1, h.2.1⟩

/-- C3: after startup and load completion, any finite sequence of clicks on
tab buttons with ids among overview, codebase, datasources, dashboard can
occur, and afterwards `loading` is false and the content area holds exactly
one view: the one named by the last tag of the sequence, or by "overview"
when the sequence is empty. -/
theorem C3_one_view_last_tag (m : UpdateMode) (tags : List String)
    (hv : ∀ t ∈ tags, t ∈ tabIds) :
    ∃ (c : Component) (v : View),
      run m (loadEvents m ++ clicks tags) Component.initial = some c ∧
      c.state.loading = false ∧
      (renderContent c.state).views = [v] ∧
      (renderContent c.state).showsLoading = false ∧
      viewNamed (tags.getLast?.getD "overview") c.state = some v := by
  have hrun : run m (loadEvents m ++ clicks tags) Component.initial
      = some { state := tags.foldl (fun acc t => selectView t acc) loadedState,
               phase := LoadPhase.completed } := by
    rw [run_append, run_loadEvents, Option.some_bind]
    exact run_clicks m tags hv LoadPhase.completed (by decide) loadedState
  have hl : (tags.foldl (fun acc t => selectView t acc) loadedState).loading = false := by
    rw [foldl_selectView_loading]; rfl
  have ha : (tags.foldl (fun acc t => selectView t acc) loadedState).activeTab
      = tags.getLast?.getD "overview" := by
    rw [foldl_selectView_activeTab]; rfl
  have hmem : (tags.foldl (fun acc t => selectView t acc) loadedState).activeTab ∈ tabIds := by
    rw [ha]
    cases hlast : tags.getLast? with
    | none => simp [tabIds]
    | some t => exact hv t (List.mem_of_getLast?_eq_some hlast)
  obtain ⟨v, hv1, hv2⟩ := renderContent_views _ hl hmem
  refine ⟨_, v, hrun, hl, hv1, ?_, ?_⟩
  · simp [renderContent, hl, Content.showsLoading]
  · rw [← ha]; exact hv2

/-- Witness for C3: the clicks codebase, datasources after the load. -/
theorem C3_one_view_last_tag_witness :
    ∃ (c : Component) (v : View),
      run UpdateMode.batched
        (loadEvents UpdateMode.batched ++ clicks ["codebase", "datasources"])
        Component.initial = some c ∧
      c.state.loading = false ∧
      (renderContent c.state).views = [v] ∧
      (renderContent c.state).showsLoading = false ∧
      viewNamed ((["codebase", "datasources"] : List String).getLast?.getD "overview")
        c.state = some v :=
  C3_one_view_last_tag UpdateMode.batched ["codebase", "datasources"] (by decide)

/-- C4: whenever `loading` is true the content area is the loading indicator
and holds none of the four views, whatever `activeTab` and `projectData` are;
whenever `loading` is false the loading indicator is not rendered. -/
theorem C4_loading_gate (s : State) :
    (s.loading = true →
        renderContent s = Content.loadingIndicator ∧ (renderContent s).views = []) ∧
      (s.loading = false → (renderContent s).showsLoading = false) := by
  constructor
  · intro h
    simp [renderContent, h, Content.views]
  · intro h
    simp [renderContent, h, Content.showsLoading]

/-- Witness for C4: a loading state with data present and the dashboard tab,
and the loaded state. -/
theorem C4_loading_gate_witness :
    (renderContent (setLoading true (setActiveTab "dashboard" loadedState))
        = Content.loadingIndicator ∧
      (renderContent (setLoading true (setActiveTab "dashboard" loadedState))).views = []) ∧
      (renderContent loadedState).showsLoading = false :=
  ⟨(C4_loading_gate (setLoading true (setActiveTab "dashboard" loadedState))).1 rfl,
   (C4_loading_gate loadedState).2 rfl⟩

/-- C5: for every state and every tag among overview, codebase, datasources,
dashboard, `selectView tag` gives a state whose `activeTab` is the tag and
whose `projectData`, `loading`, `analysisResults` and `selectedRegion` are
unchanged; a click on "datasources" after the load gives the active tab
"datasources" and leaves `projectData` equal to the `sampleData` set by the
load step. -/
theorem C5_selectView_frame (s : State) (tag : String) (ht : tag ∈ tabIds) :
    (selectView tag s).activeTab = tag ∧
      (selectView tag s).projectData = s.projectData ∧
      (selectView tag s).loading = s.loading ∧
      (selectView tag s).analysisResults = s.analysisResults ∧
      (selectView tag s).selectedRegion = s.selectedRegion ∧
      step UpdateMode.batched (Event.click tag) { state := s, phase := LoadPhase.completed }
        = some { state := selectView tag s, phase := LoadPhase.completed } ∧
      ∀ m : UpdateMode,
        run m (loadEvents m ++ [Event.click "datasources"]) Component.initial
          = some { state := { loadedState with activeTab := "datasources" },
                   phase := LoadPhase.completed } ∧
        ({ loadedState with activeTab := "datasources" } : State).projectData
          = some sampleData := by
  refine ⟨rfl, rfl, rfl, rfl, rfl, ?_, ?_⟩
  · simp [step, ht]
  · intro m
    cases m <;> exact ⟨rfl, rfl⟩

/-- Witness for C5: the tag "datasources" on the loaded state. -/
theorem C5_selectView_frame_witness :
    (selectView "datasources" loadedState).activeTab = "datasources" ∧
      (selectView "datasources" loadedState).projectData = loadedState.projectData :=
  have h := C5_selectView_frame loadedState "datasources" (by decide)
  ⟨h.1, h.2.1⟩

/-- C6: `selectView` is idempotent: for every state `s` and every valid tag
`t`, applying `selectView t` to `selectView t s` gives `selectView t s`. -/
theorem C6_selectView_idempotent (s : State) (t : String) (ht : t ∈ tabIds) :
    selectView t (selectView t s) = selectView t s := by
  have _ := ht
  rfl

/-- Witness for C6: the tag "codebase" on the initial state. -/
theorem C6_selectView_idempotent_witness :
    selectView "codebase" (selectView "codebase" initialState)
      = selectView "codebase" initialState :=
  C6_selectView_idempotent initialState "codebase" (by decide)

/-- C7: in every reachable state `projectData` is `null` or the complete
`sampleData` record, and once it is set no later sequence of steps changes
it. -/
theorem C7_projectData_all_or_nothing (m : UpdateMode) (c : Component)
    (hr : Reachable m c) :
    (c.state.projectData = none ∨ c.state.projectData = some sampleData) ∧
      (c.state.projectData ≠ none →
        ∀ (es : List Event) (c' : Component), run m es c = some c' →
          c'.state.projectData = c.state.projectData) := by
  have hi := reachable_inv m c hr
  constructor
  · obtain ⟨st, ph⟩ := c
    cases ph <;> simp [Inv] at hi ⊢ <;> simp [hi]
  · intro hd es c' h
    exact run_projectData m es c c' h hi hd

/-- Witness for C7: the component after the load; a later click on
"dashboard" keeps `projectData`. -/
theorem C7_projectData_all_or_nothing_witness :
    ((⟨loadedState, LoadPhase.completed⟩ : Component).state.projectData = none ∨
        (⟨loadedState, LoadPhase.completed⟩ : Component).state.projectData
          = some sampleData) ∧
      (⟨setActiveTab "dashboard" loadedState, LoadPhase.completed⟩ :
          Component).state.projectData
        = (⟨loadedState, LoadPhase.completed⟩ : Component).state.projectData :=
  have h := C7_projectData_all_or_nothing UpdateMode.batched
    ⟨loadedState, LoadPhase.completed⟩ ⟨[Event.effect, Event.resume], rfl⟩
  ⟨h.1, h.2 (by simp [loadedState]) [Event.click "dashboard"]
    ⟨setActiveTab "dashboard" loadedState, LoadPhase.completed⟩ rfl⟩

/-- C8 (as stated, refuted): `setProjectData(sampleData)` and
`setLoading(false)` are two setter calls; when each commits on its own, the
state between them is reachable and has `projectData` set to `sampleData`
while `loading` is still true. -/
theorem C8_intermediate_state :
    ¬ (∀ (m : UpdateMode) (c : Component), Reachable m c →
        ¬ (c.state.projectData = some sampleData ∧ c.state.loading = true)) := by
  intro h
  exact h UpdateMode.unbatched
    ⟨setProjectData (some sampleData) (setLoading true initialState), LoadPhase.dataSet⟩
    ⟨[Event.effect, Event.resume], rfl⟩ ⟨rfl, rfl⟩

/-- C8 (amended): in a reachable state with `projectData` set, `loading` is
false when the two setter calls of the continuation are committed together
(batched mode); a reachable state with `projectData` set and `loading` still
true is the state between the two calls, its content area shows only the
loading indicator, and the only transition from it is `setLoading(false)`:
no tab activation occurs in between. -/
theorem C8_load_completion (m : UpdateMode) (c : Component)
    (hr : Reachable m c) (hd : c.state.projectData ≠ none) :
    (m = UpdateMode.batched → c.state.loading = false) ∧
      (c.state.loading = true →
        c.phase = LoadPhase.dataSet ∧
        renderContent c.state = Content.loadingIndicator ∧
        ∀ (e : Event) (c' : Component), step m e c = some c' →
          e = Event.finish ∧
          c' = { state := setLoading false c.state, phase := LoadPhase.completed }) := by
  have hi := reachable_inv m c hr
  constructor
  · intro hm
    subst hm
    obtain ⟨es, hes⟩ := hr
    have hp := run_batched_phase es _ _ hes (by simp [Component.initial])
    obtain ⟨st, ph⟩ := c
    cases ph <;> simp [Inv] at hi hd hp ⊢ <;> simp_all
  · intro hl
    have hp : c.phase = LoadPhase.dataSet := by
      obtain ⟨st, ph⟩ := c
      cases ph <;> simp [Inv] at hi hd hl ⊢ <;> simp_all
    refine ⟨hp, ?_, ?_⟩
    · simp [renderContent, hl]
    · intro e c' h
      exact step_dataSet m e c c' hp h

/-- Witness for C8: the state between the two setter calls. -/
theorem C8_load_completion_witness :
    (⟨setProjectData (some sampleData) (setLoading true initialState),
        LoadPhase.dataSet⟩ : Component).phase = LoadPhase.dataSet ∧
      renderContent (setProjectData (some sampleData) (setLoading true initialState))
        = Content.loadingIndicator :=
  have h := (C8_load_completion UpdateMode.unbatched
    ⟨setProjectData (some sampleData) (setLoading true initialState), LoadPhase.dataSet⟩
    ⟨[Event.effect, Event.resume], rfl⟩ (by simp [setProjectData])).2 rfl
  ⟨h.1, h.2.1⟩

/-- C9: in `sampleData` the change of conservation is 9.5 and that of
afforestation is 27.3, both strictly positive, and the change of
business_as_usual is -10.3, strictly negative; so in the overview of the
loaded state exactly the conservation and afforestation rows get the "+"
sign and the green classes, and the business_as_usual row gets no sign and
the red classes. -/
theorem C9_scenario_directions :
    ∃ b c a : Scenario,
      sampleData.scenarios.lookup "business_as_usual" = some b ∧
      sampleData.scenarios.lookup "conservation" = some c ∧
      sampleData.scenarios.lookup "afforestation" = some a ∧
      c.change = 9.5 ∧ 0 < c.change ∧
      a.change = 27.3 ∧ 0 < a.change ∧
      b.change = -10.3 ∧ b.change < 0 ∧
      renderOverview loadedState
        = View.overview (metricCards (some sampleData)) (scenarioRows (some sampleData)) ∧
      (scenarioRows (some sampleData)).map (fun r => (r.key, r.sign, r.className))
        = [ ("business_as_usual", "", "bg-red-100 text-red-700"),
            ("conservation", "+", "bg-green-100 text-green-700"),
            ("afforestation", "+", "bg-green-100 text-green-700") ] := by
  refine ⟨⟨220.4, -10.3⟩, ⟨268.9, 9.5⟩, ⟨312.5, 27.3⟩, rfl, rfl, rfl, rfl, ?_, rfl, ?_,
    rfl, ?_, rfl, ?_⟩
  · norm_num
  · norm_num
  · norm_num
  · simp only [scenarioRows, sampleData, List.map_cons, List.map_nil, scenarioRow]
    norm_num

/-- C10: with `loading` false and `activeTab` one of codebase, datasources,
dashboard, the content area is the same for any two values of `projectData`,
`null` included; with `activeTab` overview it is not: the content for `null`
differs from the content for `sampleData`. -/
theorem C10_content_independent (s : State) (d d' : Option ProjectData)
    (hl : s.loading = false)
    (ht : s.activeTab ∈ ["codebase", "datasources", "dashboard"]) :
    renderContent (setProjectData d s) = renderContent (setProjectData d' s) ∧
      renderContent (setProjectData none (setActiveTab "overview" s))
        ≠ renderContent (setProjectData (some sampleData) (setActiveTab "overview" s)) := by
  constructor
  · simp only [List.mem_cons, List.mem_singleton, List.mem_nil_iff, or_false] at ht
    rcases ht with h | h | h <;>
      simp [renderContent, setProjectData, hl, h, jsAnd]
  · simp only [renderContent, setProjectData, setActiveTab, hl, jsAnd, renderOverview,
      metricCards, fieldOrZero, scenarioRows, sampleData, orZero]
    norm_num

/-- Witness for C10: the codebase tab of the loaded state, with and without
data. -/
theorem C10_content_independent_witness :
    renderContent (setProjectData none (setActiveTab "codebase" loadedState))
      = renderContent (setProjectData (some sampleData) (setActiveTab "codebase" loadedState)) :=
  (C10_content_independent (setActiveTab "codebase" loadedState) none (some sampleData)
    rfl (by decide)).1

/-- C11: the initial `activeTab` is "overview"; the tab buttons the component
renders have the ids overview, codebase, datasources, dashboard; in every
state reachable through startup, load completion and clicks on those buttons
`activeTab` is one of the four ids, each of which is reached; and a step of
the load (the effect, the resumption, the second setter) never changes
`activeTab`. -/
theorem C11_activeTab_valid (m : UpdateMode) (c : Component) (hr : Reachable m c) :
    initialState.activeTab = "overview" ∧
      tabIds = ["overview", "codebase", "datasources", "dashboard"] ∧
      c.state.activeTab ∈ tabIds ∧
      (∀ t ∈ tabIds, ∃ c1, Reachable m c1 ∧ c1.state.activeTab = t) ∧
      (∀ (e : Event) (c' : Component), (∀ id, e ≠ Event.click id) →
        step m e c = some c' → c'.state.activeTab = c.state.activeTab) ∧
      (∀ s : State, (initializeProjectStart s).activeTab = s.activeTab ∧
        (initializeProjectFinish s).activeTab = s.activeTab) := by
  refine ⟨rfl, rfl, ?_, ?_, ?_, ?_⟩
  · obtain ⟨es, hes⟩ := hr
    exact run_activeTab_mem m es _ _ hes (by decide)
  · intro t ht
    refine ⟨{ state := selectView t initialState, phase := LoadPhase.notStarted },
      ⟨[Event.click t], ?_⟩, rfl⟩
    cases m <;> simp [run, step, Component.initial, ht]
  · intro e c' he h
    exact step_load_activeTab m e c c' he h
  · intro s
    exact ⟨rfl, rfl⟩

/-- Witness for C11: the component after a click on "dashboard", the load,
and a click on "codebase". -/
theorem C11_activeTab_valid_witness :
    (⟨setActiveTab "codebase" loadedState, LoadPhase.completed⟩ :
        Component).state.activeTab ∈ tabIds :=
  (C11_activeTab_valid UpdateMode.unbatched
    ⟨setActiveTab "codebase" loadedState, LoadPhase.completed⟩
    ⟨[Event.click "dashboard", Event.effect, Event.resume, Event.finish,
      Event.click "codebase"], rfl⟩).2.2.1

/-- C12: `selectView` performs no validation: for every tag outside overview,
codebase, datasources, dashboard, `setActiveTab tag` stores the tag as
`activeTab` and leaves `loading` as it is; with `loading` false the content
area is then the fragment whose four children are all `false`: none of the
four views and not the loading indicator. -/
theorem C12_unknown_tag_empty (s : State) (tag : String) (ht : tag ∉ tabIds) :
    selectView tag s = setActiveTab tag s ∧
      (setActiveTab tag s).activeTab = tag ∧
      (setActiveTab tag s).loading = s.loading ∧
      (s.loading = false →
        renderContent (setActiveTab tag s) = Content.fragment [none, none, none, none] ∧
        (renderContent (setActiveTab tag s)).views = [] ∧
        (renderContent (setActiveTab tag s)).showsLoading = false) := by
  refine ⟨rfl, rfl, rfl, ?_⟩
  intro hl
  simp only [tabIds, List.mem_cons, List.mem_singleton, List.mem_nil_iff, or_false,
    not_or] at ht
  obtain ⟨h1, h2, h3, h4⟩ := ht
  have hc : renderContent (setActiveTab tag s) = Content.fragment [none, none, none, none] := by
    simp [renderContent, setActiveTab, hl, jsAnd, h1, h2, h3, h4]
  rw [hc]
  exact ⟨rfl, rfl, rfl⟩

/-- Witness for C12: the tag "settings" on the loaded state. -/
theorem C12_unknown_tag_empty_witness :
    (setActiveTab "settings" loadedState).activeTab = "settings" ∧
      renderContent (setActiveTab "settings" loadedState)
        = Content.fragment [none, none, none, none] ∧
      (renderContent (setActiveTab "settings" loadedState)).views = [] :=
  have h := C12_unknown_tag_empty loadedState "settings" (by decide)
  ⟨h.2.1, (h.2.2.2 rfl).1, (h.2.2.2 rfl).2.1⟩

/-- C13: the first render (`loading` false, `projectData` null, `activeTab`
overview, before the startup effect has run) shows the overview with the four
metric cards receiving the value 0 and with no scenario row; the render of the
loaded state shows the overview with the four cards receiving 245.6, 12.3,
15420 and 2145000 and exactly three scenario rows, in the key order
business_as_usual, conservation, afforestation. -/
theorem C13_overview_values :
    Component.initial.phase = LoadPhase.notStarted ∧
      initialState.loading = false ∧ initialState.projectData = none ∧
      (renderContent initialState).views
        = [View.overview (metricCards none) (scenarioRows none)] ∧
      (metricCards none).map MetricCardProps.label
        = ["Total Carbon Stock", "Sequestration Rate", "Forest Area", "Economic Value"] ∧
      (metricCards none).map MetricCardProps.value = [0, 0, 0, 0] ∧
      scenarioRows none = [] ∧
      (renderContent loadedState).views
        = [View.overview (metricCards (some sampleData)) (scenarioRows (some sampleData))] ∧
      (metricCards (some sampleData)).map MetricCardProps.value
        = [245.6, 12.3, 15420, 2145000] ∧
      (scenarioRows (some sampleData)).length = 3 ∧
      (scenarioRows (some sampleData)).map ScenarioRow.key
        = ["business_as_usual", "conservation", "afforestation"] := by
  refine ⟨rfl, rfl, rfl, rfl, rfl, rfl, rfl, rfl, ?_, rfl, rfl⟩
  simp only [metricCards, fieldOrZero, orZero, sampleData, List.map_cons, List.map_nil]
  norm_num

end ForestCarbonPlatform
